import Mathlib

/-!
Verification of the Helldivers 2 stratagem plugin's sequence-matching and
timed-replay engine, as a shallow embedding of the Python source
(`main.py` and `test_stratagems.py`).
-/

set_option maxHeartbeats 1000000

/-- Directional inputs (`DIRECTION_KEYS` in `main.py`). -/
inductive Direction
  | UP
  | DOWN
  | LEFT
  | RIGHT
deriving DecidableEq, Repr

/-- The string token for a direction, as stored in stratagem sequences. -/
def Direction.name : Direction → String
  | .UP => "UP"
  | .DOWN => "DOWN"
  | .LEFT => "LEFT"
  | .RIGHT => "RIGHT"

/-- evdev key code of a direction key (`ecodes.KEY_UP`, etc.). -/
def Direction.code : Direction → Nat
  | .UP => 103
  | .DOWN => 108
  | .LEFT => 105
  | .RIGHT => 106

/-- The evdev `ecodes.ecodes` name→code table, restricted to the key names
this plugin uses (the six `MODIFIER_KEYS` values of `main.py` and the four
direction keys). Names outside this set are absent, modelling an
unrecognized key-code name. -/
def ecodesMap : String → Option Nat := fun s =>
  if s = "KEY_LEFTCTRL" then some 29
  else if s = "KEY_RIGHTCTRL" then some 97
  else if s = "KEY_LEFTSHIFT" then some 42
  else if s = "KEY_RIGHTSHIFT" then some 54
  else if s = "KEY_LEFTALT" then some 56
  else if s = "KEY_RIGHTALT" then some 100
  else if s = "KEY_UP" then some 103
  else if s = "KEY_DOWN" then some 108
  else if s = "KEY_LEFT" then some 105
  else if s = "KEY_RIGHT" then some 106
  else none

/-! ## SequenceMatcher (from `test_stratagems.py`, class `StratagemValidator`) -/

/-- A stratagem dictionary: list of (name, direction sequence) pairs, as
loaded from `stratagems.json` (`self.stratagems`). -/
abbrev Stratagems := List (String × List Direction)

/-- Matcher state: the mutable fields of `StratagemValidator` that drive
sequence matching and modifier-mode classification. -/
structure MatcherState where
  current_sequence : List Direction
  modifier_key : Option String
  modifier_pressed_at_start : Bool
  modifier_released_during : Bool
  keys_with_modifier : Nat
  keys_without_modifier : Nat
deriving DecidableEq, Repr

/-- The state after `__init__` / `clear_sequence`: everything empty. -/
def initialMatcher : MatcherState :=
  { current_sequence := []
    modifier_key := none
    modifier_pressed_at_start := false
    modifier_released_during := false
    keys_with_modifier := 0
    keys_without_modifier := 0 }

/-- `clear_sequence`: resets all matcher fields unconditionally. -/
def clear_sequence (_ : MatcherState) : MatcherState := initialMatcher

/-- `self.sequence_lookup`, the dict built from sequence tuple → name.
Python dict insertion lets a later entry with the same sequence overwrite
an earlier one, so lookup returns the last matching name. -/
def sequence_lookup (strat : Stratagems) (buf : List Direction) : Option String :=
  ((strat.filter (fun e => e.2 = buf)).map Prod.fst).getLast?

/-- The stratagem names collected by the loop in `update_display`:
`len(sequence) >= len(current_sequence) and sequence[:len(current_sequence)] == current_sequence`. -/
def candidate_keys (strat : Stratagems) (buf : List Direction) : List String :=
  (strat.filter (fun e => buf.length ≤ e.2.length ∧ e.2.take buf.length = buf)).map Prod.fst

/-- The classification a call to `update_display` shows in the result label. -/
inductive MatchResult
  | exact (name : String)
  | candidates (names : List String)
  | noMatch
deriving DecidableEq, Repr

/-- `update_display`: exact lookup first, then the candidate scan, else no
match. It only updates labels; it never modifies `current_sequence`. -/
def update_display (strat : Stratagems) (buf : List Direction) : MatchResult :=
  match sequence_lookup strat buf with
  | some name => .exact name
  | none =>
    let cs := candidate_keys strat buf
    if cs ≠ [] then .candidates cs else .noMatch

/-- `add_key`: appends the direction to `current_sequence`, then calls
`update_display`. -/
def add_key (strat : Stratagems) (st : MatcherState) (d : Direction) :
    MatcherState × MatchResult :=
  let st' := { st with current_sequence := st.current_sequence ++ [d] }
  (st', update_display strat st'.current_sequence)

/-- Feed a list of directions one at a time through `add_key`, collecting
the emitted results in order. -/
def feed (strat : Stratagems) (st : MatcherState) : List Direction → MatcherState × List MatchResult
  | [] => (st, [])
  | d :: ds =>
    let p := add_key strat st d
    let q := feed strat p.1 ds
    (q.1, p.2 :: q.2)

/-- The direction-key branch of `on_key_pressed` (lines 196–214): bump the
with/without-modifier counter, latch the modifier identity from the state
mask if unseen, then `add_key`. `stateModName` models
`get_modifier_from_state(state)`. -/
def on_direction_pressed (strat : Stratagems) (st : MatcherState) (d : Direction)
    (modifier_active : Bool) (stateModName : String) : MatcherState × MatchResult :=
  let st1 :=
    if modifier_active then { st with keys_with_modifier := st.keys_with_modifier + 1 }
    else { st with keys_without_modifier := st.keys_without_modifier + 1 }
  let st2 :=
    if st1.modifier_key = none ∧ modifier_active then
      { st1 with
        modifier_key := some stateModName
        modifier_pressed_at_start := st1.current_sequence.length = 0 }
    else st1
  add_key strat st2 d

/-- The modifier-key branch of `on_key_pressed` (lines 189–194). -/
def on_modifier_pressed (st : MatcherState) (name : String) : MatcherState :=
  if st.modifier_key = none then
    { st with
      modifier_key := some name
      modifier_pressed_at_start := st.current_sequence.length = 0 }
  else st

/-- The modifier branch of `on_key_released` (lines 218–224). -/
def on_modifier_released (st : MatcherState) : MatcherState :=
  if 0 < st.current_sequence.length then { st with modifier_released_during := true }
  else st

/-- The modifier usage mode shown by `update_modifier_display`. -/
inductive ModifierMode
  | noneDetected
  | waiting
  | heldEntire
  | pressedThenReleased
  | mixed
  | heldDuring
deriving DecidableEq, Repr

/-- `update_modifier_display` (lines 263–285): the if/elif chain that
classifies modifier usage. `heldEntire` is "HELD during entire sequence",
`heldDuring` is the final else branch "HELD during sequence". -/
def update_modifier_display (st : MatcherState) : ModifierMode :=
  if st.modifier_key = none then .noneDetected
  else
    let total := st.current_sequence.length
    if total = 0 then .waiting
    else if st.keys_with_modifier = total ∧ st.modifier_released_during = false then .heldEntire
    else if st.keys_with_modifier = 0 then .pressedThenReleased
    else if 0 < st.keys_without_modifier then .mixed
    else .heldDuring

/-! ## ReplayEngine (from `main.py`, `StratagemButton.on_key_down`;
`CustomStratagemButton.on_key_down` is the same engine with the sequence
taken from user settings) -/

/-- One observable effect on the virtual input device: a key write
(`ui.write(EV_KEY, c, 1)` = `press c`, `ui.write(EV_KEY, c, 0)` =
`release c`), a `ui.syn()`, or a `sleep(delay)` pacing step. -/
inductive Ev
  | press (code : Nat)
  | release (code : Nat)
  | sync
  | sleepEv (delay : ℚ)
deriving DecidableEq, Repr

/-- Sink state: the emitted event trace and the number of `ui.write` calls
attempted so far (the write counter indexes fault injection). -/
structure SinkState where
  trace : List Ev
  writes : Nat
deriving DecidableEq, Repr

/-- A `ui.write` call. `failAt = some n` makes the write with index `n`
raise (emitting nothing); every other write succeeds. Returns the new sink
state and whether the call raised. -/
def doWrite (failAt : Option Nat) (e : Ev) (s : SinkState) : SinkState × Bool :=
  if failAt = some s.writes then ({ s with writes := s.writes + 1 }, true)
  else ({ trace := s.trace ++ [e], writes := s.writes + 1 }, false)

/-- A `ui.syn()` call (never fails in this model). -/
def doSyn (s : SinkState) : SinkState :=
  { s with trace := s.trace ++ [Ev.sync] }

/-- A `sleep(delay)` call. -/
def doSleep (delay : ℚ) (s : SinkState) : SinkState :=
  { s with trace := s.trace ++ [Ev.sleepEv delay] }

/-- The settings read at the top of `on_key_down`: `get_key_delay()`,
`get_modifier_key()`, `get_hold_modifier()`. -/
structure Config where
  keyDelay : ℚ
  modifierKey : String
  holdModifier : Bool
deriving DecidableEq, Repr

/-- The plugin-wide state `on_key_down` consults: whether `self.ui` is a
live `UInput` (not `None`), `self.hero_mode`, and `self.executing`. -/
structure PluginState where
  uiAvailable : Bool
  heroMode : Bool
  executing : Bool
deriving DecidableEq, Repr

/-- How a call to `on_key_down` ends: the three early returns, normal
completion, an exception caught by the `except` clause (logged, then the
`finally` block runs), or an exception raised inside `finally` itself. -/
inductive Outcome
  | sinkUnavailable
  | emptySequence
  | alreadyExecuting
  | ok
  | caughtError
  | uncaughtError
deriving DecidableEq, Repr

/-- What a call to `on_key_down` leaves behind: its outcome, the event
trace written to the sink, and the final value of `self.executing`. -/
structure ExecResult where
  outcome : Outcome
  trace : List Ev
  executing : Bool
deriving DecidableEq, Repr

/-- `modifier_code = ecodes.ecodes.get(modifier_key, ecodes.KEY_LEFTCTRL)`:
unrecognized names silently fall back to left control (code 29). -/
def modifierCode (name : String) : Nat :=
  (ecodesMap name).getD 29

/-- The not-hero-mode head of the `try` block: press the modifier, syn,
sleep, set `modifier_pressed = True`; if not holding, also release it,
syn, sleep. Returns (sink, modifier_pressed, raised). A raise on the
press leaves `modifier_pressed` false; a raise on the early release
leaves it true. -/
def modifierPhase (failAt : Option Nat) (cfg : Config) (s : SinkState) :
    SinkState × Bool × Bool :=
  let c := modifierCode cfg.modifierKey
  let p1 := doWrite failAt (Ev.press c) s
  if p1.2 then (p1.1, false, true)
  else
    let s2 := doSleep cfg.keyDelay (doSyn p1.1)
    if cfg.holdModifier then (s2, true, false)
    else
      let p3 := doWrite failAt (Ev.release c) s2
      if p3.2 then (p3.1, true, true)
      else (doSleep cfg.keyDelay (doSyn p3.1), true, false)

/-- The `for key in sequence` loop: look up `KEY_{key}` in the ecodes
table (a missing entry raises `KeyError` before any write), then
press, syn, sleep, release, syn, sleep. Returns (sink, raised). -/
def runKeys (failAt : Option Nat) (delay : ℚ) : List String → SinkState → SinkState × Bool
  | [], s => (s, false)
  | k :: rest, s =>
    match ecodesMap ("KEY_" ++ k) with
    | none => (s, true)
    | some c =>
      let p1 := doWrite failAt (Ev.press c) s
      if p1.2 then (p1.1, true)
      else
        let s2 := doSleep delay (doSyn p1.1)
        let p3 := doWrite failAt (Ev.release c) s2
        if p3.2 then (p3.1, true)
        else runKeys failAt delay rest (doSleep delay (doSyn p3.1))

/-- The `finally` block: if the modifier was pressed, is being held, and
hero mode is off, release it, syn, sleep; then `self.executing = False`.
Returns (sink, final executing flag, raisedInFinally): if the release
write itself raises, the trailing `self.executing = False` never runs, so
the flag stays true and the exception propagates. -/
def finallyPhase (failAt : Option Nat) (cfg : Config) (hero modPressed : Bool)
    (s : SinkState) : SinkState × Bool × Bool :=
  if modPressed && cfg.holdModifier && !hero then
    let c := modifierCode cfg.modifierKey
    let p := doWrite failAt (Ev.release c) s
    if p.2 then (p.1, true, true)
    else (doSleep cfg.keyDelay (doSyn p.1), false, false)
  else (s, false, false)

/-- `StratagemButton.on_key_down` (lines 373–428): early-return if `ui` is
`None`, if the sequence is empty, or if `executing` is already set;
otherwise set `executing`, run the try block (modifier phase unless hero
mode, then the key loop), catch any exception, and run the `finally`
block. -/
def on_key_down (failAt : Option Nat) (cfg : Config) (st : PluginState)
    (seq : List String) : ExecResult :=
  if st.uiAvailable = false then ⟨.sinkUnavailable, [], st.executing⟩
  else if seq = [] then ⟨.emptySequence, [], st.executing⟩
  else if st.executing then ⟨.alreadyExecuting, [], st.executing⟩
  else
    let s0 : SinkState := ⟨[], 0⟩
    let mp :=
      if st.heroMode then (s0, false, false)
      else modifierPhase failAt cfg s0
    let kr :=
      if mp.2.2 then (mp.1, true)
      else runKeys failAt cfg.keyDelay seq mp.1
    let fin := finallyPhase failAt cfg st.heroMode mp.2.1 kr.1
    ⟨if fin.2.2 then .uncaughtError else if kr.2 then .caughtError else .ok,
     fin.1.trace, fin.2.1⟩

/-- `HellDiversPlugin.init_input` (lines 495–506): the `UInput`
constructor either succeeds or raises; every exception is caught and
logged, leaving `self.ui = None` — the plugin keeps starting. -/
def init_input (ctor : Except String Unit) : Option Unit :=
  match ctor with
  | .ok u => some u
  | .error _ => none

/-- The expected six-event trace segment for one direction key. -/
def dirEvents (delay : ℚ) (ds : List Direction) : List Ev :=
  ds.flatMap fun d =>
    [Ev.press d.code, Ev.sync, Ev.sleepEv delay, Ev.release d.code, Ev.sync, Ev.sleepEv delay]

/-- The sink calls of a trace: everything but the `sleep` pacing steps. -/
def sinkOnly (t : List Ev) : List Ev :=
  t.filter fun e =>
    match e with
    | Ev.sleepEv _ => false
    | _ => true

/-- Number of `release c` events in a trace. -/
def releaseCount (c : Nat) (t : List Ev) : Nat :=
  t.countP fun e => decide (e = Ev.release c)

/-- Number of direction-key press events in a trace. -/
def dirPressCount (t : List Ev) : Nat :=
  t.countP fun e =>
    decide (e = Ev.press 103 ∨ e = Ev.press 105 ∨ e = Ev.press 106 ∨ e = Ev.press 108)

/-! ## ConfigurationStore (from `main.py`, `HellDiversPlugin` settings) -/

/-- A settings value: the plugin stores numbers, key-name strings and
boolean switches in its flat settings dict. -/
inductive SettingVal
  | num (q : ℚ)
  | str (s : String)
  | flag (b : Bool)
deriving DecidableEq, Repr

/-- The settings dict, observationally: key → stored value. -/
abbrev Settings := String → Option SettingVal

/-- `_save_setting` (lines 534–538): read the settings, assign
`settings[key] = value`, write them back. No validation of any kind. -/
def save_setting (s : Settings) (k : String) (v : SettingVal) : Settings :=
  fun k2 => if k2 = k then some v else s k2

/-- `get_key_delay`: `settings.get("key_delay", DEFAULT_KEY_DELAY)` with
`DEFAULT_KEY_DELAY = 0.03`; a non-numeric stored value is treated as
absent. -/
def get_key_delay (s : Settings) : ℚ :=
  match s "key_delay" with
  | some (.num q) => q
  | _ => 3 / 100

/-- `get_modifier_key`: `settings.get("modifier_key", "KEY_LEFTCTRL")`. -/
def get_modifier_key (s : Settings) : String :=
  match s "modifier_key" with
  | some (.str m) => m
  | _ => "KEY_LEFTCTRL"

/-- `get_hold_modifier`: `settings.get("hold_modifier", True)`. -/
def get_hold_modifier (s : Settings) : Bool :=
  match s "hold_modifier" with
  | some (.flag b) => b
  | _ => true

/-- The configuration `on_key_down` reads at its top, assembled from the
settings store (read per invocation, not cached). -/
def configFromSettings (s : Settings) : Config :=
  ⟨get_key_delay s, get_modifier_key s, get_hold_modifier s⟩


/-- The dictionary of the spec's concrete scenario:
`{"A": [UP, UP, DOWN]}`. -/
def dictA : Stratagems := [("A", [Direction.UP, Direction.UP, Direction.DOWN])]

/-- A reachable matcher state in which every key was pressed with the
modifier held and the modifier was then released while the buffer was
non-empty: press Ctrl, press UP with the modifier active, release Ctrl. -/
def c7state : MatcherState :=
  on_modifier_released
    (on_direction_pressed dictA (on_modifier_pressed initialMatcher "Ctrl")
      Direction.UP true "Ctrl").1

/-- The settings dict before any write. -/
def emptySettings : Settings := fun _ => none

/-! ## Supporting lemmas -/

theorem ecodesMap_dir (d : Direction) : ecodesMap ("KEY_" ++ d.name) = some d.code := by
  cases d <;> rfl

theorem runKeys_ok (ds : List Direction) (delay : ℚ) (s : SinkState) :
    runKeys none delay (ds.map Direction.name) s =
      (⟨s.trace ++ dirEvents delay ds, s.writes + 2 * ds.length⟩, false) := by
  induction ds generalizing s with
  | nil => simp [runKeys, dirEvents]
  | cons d rest ih =>
    simp only [List.map_cons, runKeys, ecodesMap_dir, doWrite, doSyn, doSleep]
    simp only [Option.some.injEq, if_neg (by simp : (none : Option Nat) ≠ some s.writes)]
    simp [ih, dirEvents, List.flatMap_cons, List.append_assoc]
    omega

theorem on_key_down_modCode (failAt : Option Nat) (cfg cfg' : Config) (st : PluginState)
    (seq : List String) (h1 : cfg.keyDelay = cfg'.keyDelay)
    (h2 : cfg.holdModifier = cfg'.holdModifier)
    (h3 : modifierCode cfg.modifierKey = modifierCode cfg'.modifierKey) :
    on_key_down failAt cfg st seq = on_key_down failAt cfg' st seq := by
  cases cfg with
  | mk kd mk hm =>
    cases cfg' with
    | mk kd' mk' hm' =>
      simp only at h1 h2 h3
      subst h1 h2
      simp only [on_key_down, modifierPhase, finallyPhase, h3]

theorem feed_buffer (strat : Stratagems) (st : MatcherState) (ds : List Direction) :
    (feed strat st ds).1.current_sequence = st.current_sequence ++ ds := by
  induction ds generalizing st with
  | nil => simp [feed]
  | cons d rest ih => simp [feed, add_key, ih]

theorem feed_length (strat : Stratagems) (st : MatcherState) (ds : List Direction) :
    (feed strat st ds).2.length = ds.length := by
  induction ds generalizing st with
  | nil => simp [feed]
  | cons d rest ih => simp [feed, ih]

theorem feed_append (strat : Stratagems) (st : MatcherState) (ds es : List Direction) :
    feed strat st (ds ++ es) =
      ((feed strat (feed strat st ds).1 es).1,
       (feed strat st ds).2 ++ (feed strat (feed strat st ds).1 es).2) := by
  induction ds generalizing st with
  | nil => simp [feed]
  | cons d rest ih => simp [feed, ih]

/-! ## Claims -/

/-- C1 counterexample: with Dictionary `{"A": [UP, UP, DOWN]}`, feeding
UP, UP, DOWN one at a time emits PartialMatchResult, PartialMatchResult,
MatchResult{"A"} — but the buffer is NOT empty after the third call: it
still holds [UP, UP, DOWN], because `update_display` never clears
`current_sequence`. This refutes the claim's buffer-reset assertion. -/
theorem c1_counterexample :
    (feed dictA initialMatcher [Direction.UP, Direction.UP, Direction.DOWN]).2 =
      [MatchResult.candidates ["A"], MatchResult.candidates ["A"], MatchResult.exact "A"] ∧
    (feed dictA initialMatcher [Direction.UP, Direction.UP, Direction.DOWN]).1.current_sequence =
      [Direction.UP, Direction.UP, Direction.DOWN] ∧
    (feed dictA initialMatcher
        [Direction.UP, Direction.UP, Direction.DOWN]).1.current_sequence ≠ [] := by
  decide

/-- C1 (amended): for every dictionary and every entry whose sequence `S`
is what exact lookup resolves (key `k`), feeding the directions of `S` one
at a time from an empty matcher emits `MatchResult k` on the final
direction, but the buffer retains `S` after the emitting call (it is
cleared only by the explicit clear/Escape reset), and a subsequent
`onDirection` extends the retained buffer instead of starting a fresh
match. -/
theorem c1_match_emitted_buffer_retained (strat : Stratagems) (k : String)
    (S : List Direction) (hS : S ≠ []) (hk : sequence_lookup strat S = some k) :
    (feed strat initialMatcher S).1.current_sequence = S ∧
    (∃ rs, (feed strat initialMatcher S).2 = rs ++ [MatchResult.exact k] ∧
      rs.length + 1 = S.length) ∧
    (∀ d, (add_key strat (feed strat initialMatcher S).1 d).1.current_sequence = S ++ [d]) := by
  have hbuf : (feed strat initialMatcher S).1.current_sequence = S := by
    simp [feed_buffer, initialMatcher]
  refine ⟨hbuf, ?_, ?_⟩
  · obtain ⟨ds, d, rfl⟩ : ∃ ds d, S = ds ++ [d] := by
      rcases List.eq_nil_or_concat S with h | ⟨ds, d, h⟩
      · exact absurd h hS
      · exact ⟨ds, d, by simpa using h⟩
    refine ⟨(feed strat initialMatcher ds).2, ?_, ?_⟩
    · rw [feed_append]
      simp [feed, add_key, update_display]
      rw [feed_buffer]
      simp [initialMatcher, update_display, hk]
    · simp [feed_length]
  · intro d
    simp [add_key, hbuf]

/-- C1 witness: the amended statement at the concrete scenario
Dictionary `{"A": [UP, UP, DOWN]}`, sequence [UP, UP, DOWN], key "A". -/
theorem c1_match_emitted_buffer_retained_witness :
    (([Direction.UP, Direction.UP, Direction.DOWN] : List Direction) ≠ [] ∧
      sequence_lookup dictA [Direction.UP, Direction.UP, Direction.DOWN] = some "A") ∧
    ((feed dictA initialMatcher [Direction.UP, Direction.UP, Direction.DOWN]).1.current_sequence =
        [Direction.UP, Direction.UP, Direction.DOWN] ∧
      (∃ rs, (feed dictA initialMatcher [Direction.UP, Direction.UP, Direction.DOWN]).2 =
          rs ++ [MatchResult.exact "A"] ∧
        rs.length + 1 = ([Direction.UP, Direction.UP, Direction.DOWN] : List Direction).length) ∧
      (∀ d, (add_key dictA
          (feed dictA initialMatcher [Direction.UP, Direction.UP, Direction.DOWN]).1
          d).1.current_sequence = [Direction.UP, Direction.UP, Direction.DOWN] ++ [d])) :=
  ⟨⟨by decide, by decide⟩,
   c1_match_emitted_buffer_retained dictA "A" [Direction.UP, Direction.UP, Direction.DOWN]
     (by decide) (by decide)⟩

/-- C2: with holdModifier=true and heroMode=false, if the sink write with
index 3 raises — the press of the 2nd directional key of a 4-key sequence,
after the modifier press (0) and the first key's press (1) and release
(2) — the remaining directional presses are aborted (the trace ends after
the first key plus cleanup), the modifier release is emitted exactly once,
at most 2 directional press events occur, the exception is caught, and
`executing` ends false (the lock is released). -/
theorem c2_cleanup_on_failure (d1 d2 d3 d4 : Direction) (cfg : Config) (st : PluginState)
    (hui : st.uiAvailable = true) (hhero : st.heroMode = false)
    (hexec : st.executing = false) (hhold : cfg.holdModifier = true)
    (hmc : modifierCode cfg.modifierKey ∉ ([103, 105, 106, 108] : List Nat)) :
    (on_key_down (some 3) cfg st ([d1, d2, d3, d4].map Direction.name)).trace =
      [Ev.press (modifierCode cfg.modifierKey), Ev.sync, Ev.sleepEv cfg.keyDelay,
       Ev.press d1.code, Ev.sync, Ev.sleepEv cfg.keyDelay,
       Ev.release d1.code, Ev.sync, Ev.sleepEv cfg.keyDelay,
       Ev.release (modifierCode cfg.modifierKey), Ev.sync, Ev.sleepEv cfg.keyDelay] ∧
    releaseCount (modifierCode cfg.modifierKey)
      (on_key_down (some 3) cfg st ([d1, d2, d3, d4].map Direction.name)).trace = 1 ∧
    dirPressCount (on_key_down (some 3) cfg st ([d1, d2, d3, d4].map Direction.name)).trace ≤ 2 ∧
    (on_key_down (some 3) cfg st ([d1, d2, d3, d4].map Direction.name)).executing = false ∧
    (on_key_down (some 3) cfg st ([d1, d2, d3, d4].map Direction.name)).outcome =
      Outcome.caughtError := by
  simp only [List.mem_cons, List.not_mem_nil, or_false, not_or] at hmc
  obtain ⟨hm1, hm2, hm3, hm4⟩ := hmc
  have hd1 : d1.code ≠ modifierCode cfg.modifierKey := by
    cases d1 <;> simp [Direction.code] <;> omega
  have h1 : on_key_down (some 3) cfg st ([d1, d2, d3, d4].map Direction.name) =
      ⟨Outcome.caughtError,
       [Ev.press (modifierCode cfg.modifierKey), Ev.sync, Ev.sleepEv cfg.keyDelay,
        Ev.press d1.code, Ev.sync, Ev.sleepEv cfg.keyDelay,
        Ev.release d1.code, Ev.sync, Ev.sleepEv cfg.keyDelay,
        Ev.release (modifierCode cfg.modifierKey), Ev.sync, Ev.sleepEv cfg.keyDelay],
       false⟩ := by
    simp [on_key_down, hui, hhero, hexec, hhold,
      modifierPhase, doWrite, doSyn, doSleep, finallyPhase, runKeys, ecodesMap_dir]
  rw [h1]
  refine ⟨rfl, ?_, ?_, rfl, rfl⟩
  · simp [releaseCount, List.countP_cons, hd1, (Ne.symm hd1)]
  · have hc : dirPressCount
        [Ev.press (modifierCode cfg.modifierKey), Ev.sync, Ev.sleepEv cfg.keyDelay,
         Ev.press d1.code, Ev.sync, Ev.sleepEv cfg.keyDelay,
         Ev.release d1.code, Ev.sync, Ev.sleepEv cfg.keyDelay,
         Ev.release (modifierCode cfg.modifierKey), Ev.sync, Ev.sleepEv cfg.keyDelay] = 1 := by
      simp [dirPressCount, List.countP_cons, hm1, hm2, hm3, hm4]
      cases d1 <;> simp [Direction.code]
    simp [hc]

/-- C2 witness: the cleanup-on-failure property at the concrete input
sequence [UP, UP, DOWN, LEFT] with keyDelay 0.03, modifier left control,
holdModifier on, hero mode off. -/
theorem c2_cleanup_on_failure_witness :
    ((⟨true, false, false⟩ : PluginState).uiAvailable = true ∧
      modifierCode "KEY_LEFTCTRL" ∉ ([103, 105, 106, 108] : List Nat)) ∧
    ((on_key_down (some 3) ⟨3 / 100, "KEY_LEFTCTRL", true⟩ ⟨true, false, false⟩
        ([Direction.UP, Direction.UP, Direction.DOWN, Direction.LEFT].map
          Direction.name)).trace =
      [Ev.press (modifierCode "KEY_LEFTCTRL"), Ev.sync, Ev.sleepEv (3 / 100),
       Ev.press Direction.UP.code, Ev.sync, Ev.sleepEv (3 / 100),
       Ev.release Direction.UP.code, Ev.sync, Ev.sleepEv (3 / 100),
       Ev.release (modifierCode "KEY_LEFTCTRL"), Ev.sync, Ev.sleepEv (3 / 100)] ∧
    releaseCount (modifierCode "KEY_LEFTCTRL")
      (on_key_down (some 3) ⟨3 / 100, "KEY_LEFTCTRL", true⟩ ⟨true, false, false⟩
        ([Direction.UP, Direction.UP, Direction.DOWN, Direction.LEFT].map
          Direction.name)).trace = 1 ∧
    dirPressCount
      (on_key_down (some 3) ⟨3 / 100, "KEY_LEFTCTRL", true⟩ ⟨true, false, false⟩
        ([Direction.UP, Direction.UP, Direction.DOWN, Direction.LEFT].map
          Direction.name)).trace ≤ 2 ∧
    (on_key_down (some 3) ⟨3 / 100, "KEY_LEFTCTRL", true⟩ ⟨true, false, false⟩
        ([Direction.UP, Direction.UP, Direction.DOWN, Direction.LEFT].map
          Direction.name)).executing = false ∧
    (on_key_down (some 3) ⟨3 / 100, "KEY_LEFTCTRL", true⟩ ⟨true, false, false⟩
        ([Direction.UP, Direction.UP, Direction.DOWN, Direction.LEFT].map
          Direction.name)).outcome = Outcome.caughtError) :=
  ⟨⟨rfl, by decide⟩,
   c2_cleanup_on_failure Direction.UP Direction.UP Direction.DOWN Direction.LEFT
     ⟨3 / 100, "KEY_LEFTCTRL", true⟩ ⟨true, false, false⟩ rfl rfl rfl rfl (by decide)⟩

/-- C3: for every 3-direction target sequence, with holdModifier=true and
heroMode=false a successful run emits exactly press(modifier), sync,
sleep, then press/sync/sleep/release/sync/sleep for each direction, then
release(modifier), sync, sleep — the sink calls (everything except the
sleep pacing steps) in the claimed order, 16 sink calls in total, with a
sleep(keyDelay) after each sync. -/
theorem c3_replay_event_order (d1 d2 d3 : Direction) (cfg : Config) (st : PluginState)
    (hui : st.uiAvailable = true) (hhero : st.heroMode = false)
    (hexec : st.executing = false) (hhold : cfg.holdModifier = true) :
    on_key_down none cfg st ([d1, d2, d3].map Direction.name) =
      ⟨Outcome.ok,
       [Ev.press (modifierCode cfg.modifierKey), Ev.sync, Ev.sleepEv cfg.keyDelay,
        Ev.press d1.code, Ev.sync, Ev.sleepEv cfg.keyDelay,
        Ev.release d1.code, Ev.sync, Ev.sleepEv cfg.keyDelay,
        Ev.press d2.code, Ev.sync, Ev.sleepEv cfg.keyDelay,
        Ev.release d2.code, Ev.sync, Ev.sleepEv cfg.keyDelay,
        Ev.press d3.code, Ev.sync, Ev.sleepEv cfg.keyDelay,
        Ev.release d3.code, Ev.sync, Ev.sleepEv cfg.keyDelay,
        Ev.release (modifierCode cfg.modifierKey), Ev.sync, Ev.sleepEv cfg.keyDelay],
       false⟩ ∧
    sinkOnly (on_key_down none cfg st ([d1, d2, d3].map Direction.name)).trace =
      [Ev.press (modifierCode cfg.modifierKey), Ev.sync,
       Ev.press d1.code, Ev.sync, Ev.release d1.code, Ev.sync,
       Ev.press d2.code, Ev.sync, Ev.release d2.code, Ev.sync,
       Ev.press d3.code, Ev.sync, Ev.release d3.code, Ev.sync,
       Ev.release (modifierCode cfg.modifierKey), Ev.sync] ∧
    (sinkOnly (on_key_down none cfg st ([d1, d2, d3].map Direction.name)).trace).length = 16 := by
  have h1 : on_key_down none cfg st ([d1, d2, d3].map Direction.name) =
      ⟨Outcome.ok,
       [Ev.press (modifierCode cfg.modifierKey), Ev.sync, Ev.sleepEv cfg.keyDelay,
        Ev.press d1.code, Ev.sync, Ev.sleepEv cfg.keyDelay,
        Ev.release d1.code, Ev.sync, Ev.sleepEv cfg.keyDelay,
        Ev.press d2.code, Ev.sync, Ev.sleepEv cfg.keyDelay,
        Ev.release d2.code, Ev.sync, Ev.sleepEv cfg.keyDelay,
        Ev.press d3.code, Ev.sync, Ev.sleepEv cfg.keyDelay,
        Ev.release d3.code, Ev.sync, Ev.sleepEv cfg.keyDelay,
        Ev.release (modifierCode cfg.modifierKey), Ev.sync, Ev.sleepEv cfg.keyDelay],
       false⟩ := by
    simp only [on_key_down, hui, hhero, hexec, hhold, modifierPhase, doWrite, doSyn, doSleep,
      finallyPhase, runKeys_ok, Bool.false_eq_true, if_false, Bool.and_self, Bool.not_false]
    simp [dirEvents, List.flatMap_cons]
  refine ⟨h1, ?_, ?_⟩ <;> rw [h1] <;> simp [sinkOnly]

/-- C3 witness: the exact event order at the concrete scenario
`execute(["UP", "UP", "DOWN"])` with keyDelay 0.01, modifier left
control, holdModifier on, hero mode off. -/
theorem c3_replay_event_order_witness :
    ((⟨true, false, false⟩ : PluginState).uiAvailable = true ∧
      (⟨1 / 100, "KEY_LEFTCTRL", true⟩ : Config).holdModifier = true) ∧
    (on_key_down none ⟨1 / 100, "KEY_LEFTCTRL", true⟩ ⟨true, false, false⟩
        ([Direction.UP, Direction.UP, Direction.DOWN].map Direction.name) =
      ⟨Outcome.ok,
       [Ev.press (modifierCode "KEY_LEFTCTRL"), Ev.sync, Ev.sleepEv (1 / 100),
        Ev.press Direction.UP.code, Ev.sync, Ev.sleepEv (1 / 100),
        Ev.release Direction.UP.code, Ev.sync, Ev.sleepEv (1 / 100),
        Ev.press Direction.UP.code, Ev.sync, Ev.sleepEv (1 / 100),
        Ev.release Direction.UP.code, Ev.sync, Ev.sleepEv (1 / 100),
        Ev.press Direction.DOWN.code, Ev.sync, Ev.sleepEv (1 / 100),
        Ev.release Direction.DOWN.code, Ev.sync, Ev.sleepEv (1 / 100),
        Ev.release (modifierCode "KEY_LEFTCTRL"), Ev.sync, Ev.sleepEv (1 / 100)],
       false⟩ ∧
    sinkOnly (on_key_down none ⟨1 / 100, "KEY_LEFTCTRL", true⟩ ⟨true, false, false⟩
        ([Direction.UP, Direction.UP, Direction.DOWN].map Direction.name)).trace =
      [Ev.press (modifierCode "KEY_LEFTCTRL"), Ev.sync,
       Ev.press Direction.UP.code, Ev.sync, Ev.release Direction.UP.code, Ev.sync,
       Ev.press Direction.UP.code, Ev.sync, Ev.release Direction.UP.code, Ev.sync,
       Ev.press Direction.DOWN.code, Ev.sync, Ev.release Direction.DOWN.code, Ev.sync,
       Ev.release (modifierCode "KEY_LEFTCTRL"), Ev.sync] ∧
    (sinkOnly (on_key_down none ⟨1 / 100, "KEY_LEFTCTRL", true⟩ ⟨true, false, false⟩
        ([Direction.UP, Direction.UP, Direction.DOWN].map Direction.name)).trace).length = 16) :=
  ⟨⟨rfl, rfl⟩,
   c3_replay_event_order Direction.UP Direction.UP Direction.DOWN
     ⟨1 / 100, "KEY_LEFTCTRL", true⟩ ⟨true, false, false⟩ rfl rfl rfl rfl⟩

/-- C4: when `executing` is already set (the ExecutionLock is held), a
call with a live sink and a non-empty sequence returns immediately with
the already-executing outcome, performs zero sink writes (empty trace)
and leaves all state unchanged — `executing` stays as it was. This is a
drop-the-request policy, not a queue. -/
theorem c4_already_executing_drops (cfg : Config) (st : PluginState) (seq : List String)
    (failAt : Option Nat) (hui : st.uiAvailable = true) (hne : seq ≠ [])
    (hexec : st.executing = true) :
    on_key_down failAt cfg st seq = ⟨Outcome.alreadyExecuting, [], st.executing⟩ := by
  simp [on_key_down, hui, hne, hexec]

/-- C4 witness: a concurrent call with the lock held, sequence ["UP"]. -/
theorem c4_already_executing_drops_witness :
    ((⟨true, false, true⟩ : PluginState).uiAvailable = true ∧
      (["UP"] : List String) ≠ [] ∧
      (⟨true, false, true⟩ : PluginState).executing = true) ∧
    on_key_down none ⟨3 / 100, "KEY_LEFTCTRL", true⟩ ⟨true, false, true⟩ ["UP"] =
      ⟨Outcome.alreadyExecuting, [], true⟩ :=
  ⟨⟨rfl, by decide, rfl⟩,
   c4_already_executing_drops ⟨3 / 100, "KEY_LEFTCTRL", true⟩ ⟨true, false, true⟩ ["UP"]
     none rfl (by decide) rfl⟩

/-- C6: with a live sink, calling the replay with an empty sequence
returns the empty-sequence outcome regardless of the `executing` flag's
value, performs no sink writes, and leaves `executing` unchanged (the
lock is never acquired). -/
theorem c6_empty_sequence_rejected (cfg : Config) (st : PluginState) (failAt : Option Nat)
    (hui : st.uiAvailable = true) :
    on_key_down failAt cfg st [] = ⟨Outcome.emptySequence, [], st.executing⟩ := by
  simp [on_key_down, hui]

/-- C6 witness: empty sequence rejected while the lock is held. -/
theorem c6_empty_sequence_rejected_witness :
    (⟨true, false, true⟩ : PluginState).uiAvailable = true ∧
    on_key_down none ⟨3 / 100, "KEY_LEFTCTRL", true⟩ ⟨true, false, true⟩ [] =
      ⟨Outcome.emptySequence, [], true⟩ :=
  ⟨rfl, c6_empty_sequence_rejected ⟨3 / 100, "KEY_LEFTCTRL", true⟩ ⟨true, false, true⟩ none rfl⟩

/-- C9: a failing `UInput` constructor is caught, leaving `ui = None`
(the plugin still starts), and afterwards every replay request fails
identically with the sink-unavailable outcome — the same result for every
configuration, sequence and fault pattern — performing no device writes
and never touching the `executing` flag. -/
theorem c9_sink_unavailable (err : String) (cfg : Config) (st : PluginState)
    (seq : List String) (failAt : Option Nat) (hui : st.uiAvailable = false) :
    init_input (Except.error err) = none ∧
    on_key_down failAt cfg st seq = ⟨Outcome.sinkUnavailable, [], st.executing⟩ :=
  ⟨rfl, by simp [on_key_down, hui]⟩

/-- C9 witness: a permission error at construction and a replay request
against the unavailable sink. -/
theorem c9_sink_unavailable_witness :
    (⟨false, false, false⟩ : PluginState).uiAvailable = false ∧
    init_input (Except.error "Permission denied") = none ∧
    on_key_down none ⟨3 / 100, "KEY_LEFTCTRL", true⟩ ⟨false, false, false⟩ ["UP"] =
      ⟨Outcome.sinkUnavailable, [], false⟩ :=
  ⟨rfl, c9_sink_unavailable "Permission denied" ⟨3 / 100, "KEY_LEFTCTRL", true⟩
    ⟨false, false, false⟩ ["UP"] none rfl⟩

/-- C10: with heroMode=false, a configured modifier key name that is not
in the ecodes table is silently replaced by the default left-control code
(29), in both modifier variants (hold and press-then-release): the run is
identical to one configured with "KEY_LEFTCTRL" (for any fault pattern),
and a successful run presses code 29 first and releases code 29 — no
error is raised for the unrecognized name. -/
theorem c10_unknown_modifier_fallback (cfg : Config) (st : PluginState) (failAt : Option Nat)
    (d : Direction) (ds : List Direction)
    (hname : ecodesMap cfg.modifierKey = none)
    (hui : st.uiAvailable = true) (hhero : st.heroMode = false)
    (hexec : st.executing = false) :
    on_key_down failAt cfg st ((d :: ds).map Direction.name) =
      on_key_down failAt { cfg with modifierKey := "KEY_LEFTCTRL" } st
        ((d :: ds).map Direction.name) ∧
    (on_key_down none cfg st ((d :: ds).map Direction.name)).outcome = Outcome.ok ∧
    (on_key_down none cfg st ((d :: ds).map Direction.name)).trace.head? =
      some (Ev.press 29) ∧
    Ev.release 29 ∈ (on_key_down none cfg st ((d :: ds).map Direction.name)).trace := by
  have hcode : modifierCode cfg.modifierKey = 29 := by
    simp [modifierCode, hname]
  have hcong : on_key_down failAt cfg st ((d :: ds).map Direction.name) =
      on_key_down failAt { cfg with modifierKey := "KEY_LEFTCTRL" } st
        ((d :: ds).map Direction.name) := by
    refine on_key_down_modCode failAt cfg _ st _ rfl rfl ?_
    rw [hcode]
    rfl
  have hrk : ∀ s : SinkState, runKeys none cfg.keyDelay (d.name :: ds.map Direction.name) s =
      (⟨s.trace ++ dirEvents cfg.keyDelay (d :: ds), s.writes + 2 * (ds.length + 1)⟩, false) := by
    intro s
    have h := runKeys_ok (d :: ds) cfg.keyDelay s
    simpa [Nat.mul_add] using h
  rcases Bool.eq_false_or_eq_true cfg.holdModifier with hhold | hhold
  · have h1 : on_key_down none cfg st ((d :: ds).map Direction.name) =
        ⟨Outcome.ok,
         [Ev.press 29, Ev.sync, Ev.sleepEv cfg.keyDelay] ++ dirEvents cfg.keyDelay (d :: ds) ++
           [Ev.release 29, Ev.sync, Ev.sleepEv cfg.keyDelay],
         false⟩ := by
      simp [on_key_down, hui, hhero, hexec, hhold, modifierPhase, doWrite, doSyn, doSleep,
        finallyPhase, hrk, hcode]
    simp only [List.map_cons] at h1
    refine ⟨hcong, ?_, ?_, ?_⟩ <;> (simp only [List.map_cons]; rw [h1]; try simp [dirEvents])
  · have h1 : on_key_down none cfg st ((d :: ds).map Direction.name) =
        ⟨Outcome.ok,
         [Ev.press 29, Ev.sync, Ev.sleepEv cfg.keyDelay,
          Ev.release 29, Ev.sync, Ev.sleepEv cfg.keyDelay] ++
           dirEvents cfg.keyDelay (d :: ds),
         false⟩ := by
      simp [on_key_down, hui, hhero, hexec, hhold, modifierPhase, doWrite, doSyn, doSleep,
        finallyPhase, hrk, hcode]
    simp only [List.map_cons] at h1
    refine ⟨hcong, ?_, ?_, ?_⟩ <;> (simp only [List.map_cons]; rw [h1]; try simp [dirEvents])

/-- C10 witness: the fallback at the unrecognized name "KEY_BOGUS" with
sequence [UP] in the press-then-release variant (holdModifier off). -/
theorem c10_unknown_modifier_fallback_witness :
    (ecodesMap "KEY_BOGUS" = none ∧
      (⟨true, false, false⟩ : PluginState).uiAvailable = true) ∧
    (on_key_down none ⟨3 / 100, "KEY_BOGUS", false⟩ ⟨true, false, false⟩
        ([Direction.UP].map Direction.name) =
      on_key_down none ⟨3 / 100, "KEY_LEFTCTRL", false⟩ ⟨true, false, false⟩
        ([Direction.UP].map Direction.name) ∧
    (on_key_down none ⟨3 / 100, "KEY_BOGUS", false⟩ ⟨true, false, false⟩
        ([Direction.UP].map Direction.name)).outcome = Outcome.ok ∧
    (on_key_down none ⟨3 / 100, "KEY_BOGUS", false⟩ ⟨true, false, false⟩
        ([Direction.UP].map Direction.name)).trace.head? = some (Ev.press 29) ∧
    Ev.release 29 ∈ (on_key_down none ⟨3 / 100, "KEY_BOGUS", false⟩ ⟨true, false, false⟩
        ([Direction.UP].map Direction.name)).trace) :=
  ⟨⟨by decide, rfl⟩,
   c10_unknown_modifier_fallback ⟨3 / 100, "KEY_BOGUS", false⟩ ⟨true, false, false⟩ none
     Direction.UP [] (by decide) rfl rfl rfl⟩

/-- C5 counterexample: feeding RIGHT first into Dictionary
`{"A": [UP, UP, DOWN]}` (no entry starts with RIGHT) emits NoMatchResult,
but the buffer is NOT reset to empty after the emitting call: it holds
[RIGHT]. This refutes the claim's buffer-reset assertion. -/
theorem c5_counterexample :
    (add_key dictA initialMatcher Direction.RIGHT).2 = MatchResult.noMatch ∧
    (add_key dictA initialMatcher Direction.RIGHT).1.current_sequence = [Direction.RIGHT] ∧
    (add_key dictA initialMatcher Direction.RIGHT).1.current_sequence ≠ [] := by
  decide

/-- C5 (amended): for every direction event whose appended buffer is
neither an exact match nor a prefix of any dictionary sequence, the
matcher emits NoMatchResult, but the buffer retains the appended
non-matching input (it is non-empty after the emitting call and is
cleared only by the explicit clear/Escape reset), so non-matching input
accumulates until an explicit clear. -/
theorem c5_no_match_buffer_retained (strat : Stratagems) (st : MatcherState) (d : Direction)
    (h1 : sequence_lookup strat (st.current_sequence ++ [d]) = none)
    (h2 : candidate_keys strat (st.current_sequence ++ [d]) = []) :
    (add_key strat st d).2 = MatchResult.noMatch ∧
    (add_key strat st d).1.current_sequence = st.current_sequence ++ [d] ∧
    (add_key strat st d).1.current_sequence ≠ [] := by
  refine ⟨?_, rfl, by simp [add_key]⟩
  simp [add_key, update_display, h1, h2]

/-- C5 witness: the amended statement at the concrete scenario — RIGHT
fed first into Dictionary `{"A": [UP, UP, DOWN]}`. -/
theorem c5_no_match_buffer_retained_witness :
    (sequence_lookup dictA (initialMatcher.current_sequence ++ [Direction.RIGHT]) = none ∧
      candidate_keys dictA (initialMatcher.current_sequence ++ [Direction.RIGHT]) = []) ∧
    ((add_key dictA initialMatcher Direction.RIGHT).2 = MatchResult.noMatch ∧
      (add_key dictA initialMatcher Direction.RIGHT).1.current_sequence =
        initialMatcher.current_sequence ++ [Direction.RIGHT] ∧
      (add_key dictA initialMatcher Direction.RIGHT).1.current_sequence ≠ []) :=
  ⟨⟨by decide, by decide⟩,
   c5_no_match_buffer_retained dictA initialMatcher Direction.RIGHT (by decide) (by decide)⟩

/-- C7 counterexample: a reachable matcher state (modifier pressed, UP
pressed with the modifier active, modifier released) in which every key
was pressed with the modifier (`keysWithModifierCount = len(buffer)`) and
the modifier was released during the sequence. The claim classifies this
state as MIXED, but the code's final else branch classifies it as HELD
("HELD during sequence"). -/
theorem c7_counterexample :
    c7state.modifier_key ≠ none ∧
    0 < c7state.current_sequence.length ∧
    c7state.keys_with_modifier = c7state.current_sequence.length ∧
    c7state.modifier_released_during = true ∧
    update_modifier_display c7state = ModifierMode.heldDuring ∧
    update_modifier_display c7state ≠ ModifierMode.mixed := by
  decide

/-- C7 (amended): for every matcher state with a seen modifier, a
non-empty buffer, and the counter invariant
`keysWithModifierCount + keysWithoutModifierCount = len(buffer)`
(maintained by the event handlers), the classification is: HELD-entire
iff every key had the modifier and it was never released mid-sequence;
PRESSED_THEN_RELEASED iff no key had the modifier; MIXED iff strictly
some but not all keys had the modifier; and HELD (the "HELD during
sequence" else branch) iff every key had the modifier but it was released
during the sequence — that last case is HELD, not MIXED. -/
theorem c7_modifier_mode_classification (st : MatcherState)
    (hmod : st.modifier_key ≠ none)
    (hlen : 0 < st.current_sequence.length)
    (hinv : st.keys_with_modifier + st.keys_without_modifier = st.current_sequence.length) :
    (update_modifier_display st = ModifierMode.heldEntire ↔
      st.keys_with_modifier = st.current_sequence.length ∧
        st.modifier_released_during = false) ∧
    (update_modifier_display st = ModifierMode.pressedThenReleased ↔
      st.keys_with_modifier = 0) ∧
    (update_modifier_display st = ModifierMode.mixed ↔
      0 < st.keys_with_modifier ∧
        st.keys_with_modifier < st.current_sequence.length) ∧
    (update_modifier_display st = ModifierMode.heldDuring ↔
      st.keys_with_modifier = st.current_sequence.length ∧
        st.modifier_released_during = true) := by
  have hlen' : st.current_sequence.length ≠ 0 := Nat.pos_iff_ne_zero.mp hlen
  rcases Bool.eq_false_or_eq_true st.modifier_released_during with hrel | hrel <;>
    simp only [update_modifier_display, hmod, hrel, hlen', if_false] <;>
    split_ifs with h1 h2 h3 <;> simp_all <;> omega

/-- C7 witness: the amended classification applied to the reachable state
`c7state`, where it yields the HELD-during-sequence mode. -/
theorem c7_modifier_mode_classification_witness :
    (c7state.modifier_key ≠ none ∧
      0 < c7state.current_sequence.length ∧
      c7state.keys_with_modifier + c7state.keys_without_modifier =
        c7state.current_sequence.length) ∧
    ((update_modifier_display c7state = ModifierMode.heldEntire ↔
        c7state.keys_with_modifier = c7state.current_sequence.length ∧
          c7state.modifier_released_during = false) ∧
      (update_modifier_display c7state = ModifierMode.pressedThenReleased ↔
        c7state.keys_with_modifier = 0) ∧
      (update_modifier_display c7state = ModifierMode.mixed ↔
        0 < c7state.keys_with_modifier ∧
          c7state.keys_with_modifier < c7state.current_sequence.length) ∧
      (update_modifier_display c7state = ModifierMode.heldDuring ↔
        c7state.keys_with_modifier = c7state.current_sequence.length ∧
          c7state.modifier_released_during = true)) :=
  ⟨⟨by decide, by decide, by decide⟩,
   c7_modifier_mode_classification c7state (by decide) (by decide) (by decide)⟩

/-- C8 counterexample: writing keyDelay = 2 (outside (0, 1.0]) through
`_save_setting` is not rejected — there is no validation and no error
path — the out-of-range value is stored and becomes the effective key
delay. This refutes the claimed rejection with InvalidConfigError. -/
theorem c8_counterexample :
    get_key_delay (save_setting emptySettings "key_delay" (SettingVal.num 2)) = 2 ∧
    ¬(get_key_delay (save_setting emptySettings "key_delay" (SettingVal.num 2)) ≤ 1) ∧
    save_setting emptySettings "key_delay" (SettingVal.num 2) "key_delay" =
      some (SettingVal.num 2) := by
  refine ⟨rfl, by norm_num [get_key_delay, save_setting, emptySettings], rfl⟩

/-- C8 (amended): a configuration write of keyDelay stores the value
unconditionally — no validation, no error, no clamping in the store
itself (the settings slider merely limits what the UI can produce): the
stored key delay equals the written value, every other setting is left
intact, and the configuration assembled for the next execution uses the
written value. -/
theorem c8_key_delay_write_unvalidated (s : Settings) (v : ℚ) (k : String)
    (hk : k ≠ "key_delay") :
    get_key_delay (save_setting s "key_delay" (SettingVal.num v)) = v ∧
    save_setting s "key_delay" (SettingVal.num v) k = s k ∧
    (configFromSettings (save_setting s "key_delay" (SettingVal.num v))).keyDelay = v :=
  ⟨rfl, by simp [save_setting, hk], rfl⟩

/-- C8 witness: the unvalidated write at the out-of-range value 2,
checking the "modifier_key" entry is untouched. -/
theorem c8_key_delay_write_unvalidated_witness :
    ("modifier_key" ≠ "key_delay") ∧
    (get_key_delay (save_setting emptySettings "key_delay" (SettingVal.num 2)) = 2 ∧
      save_setting emptySettings "key_delay" (SettingVal.num 2) "modifier_key" =
        emptySettings "modifier_key" ∧
      (configFromSettings
        (save_setting emptySettings "key_delay" (SettingVal.num 2))).keyDelay = 2) :=
  ⟨by decide, c8_key_delay_write_unvalidated emptySettings 2 "modifier_key" (by decide)⟩
